import Mathlib

/-!
Shallow embedding of `pywebio/platform/tornado.py`: the WebSocket
connection/session bridge and the Tornado server bootstrap.

External collaborators (the Tornado framework, the `json` module, the
session engines from `pywebio.session`, `webbrowser`) are modelled at
their interface: transport writes, log calls and browser launches become
explicit effects; `json.loads` becomes a decode function that can fail.
Everything else is translated directly from the source file.
-/

set_option autoImplicit false
set_option linter.unusedVariables false

namespace PyWebio

/-- The execution-model setting returned by `get_session_implement()`:
the handler picks `AsyncBasedSession` or `ThreadBasedWebIOSession`. -/
inductive SessionImplement
  | asyncBased
  | threadBased
deriving DecidableEq, Repr

/-- Observable state of one `WSHandler` instance regarding the mutual
close handshake between the Connection and its Session.
`session_close_calls` records every `self.session.close(...)` call the
handler issues, together with the `no_session_close_callback` flag value
passed; `transport_close_calls` counts calls to `self.close()` on the
transport. -/
structure WSHandlerState where
  close_from_session_tag : Bool
  conn_open : Bool
  transport_close_calls : Nat
  session_close_calls : List Bool
deriving DecidableEq, Repr

/-- `WSHandler.open` (lines 33-45): the handler starts with
`self._close_from_session_tag = False` and an open connection; no close
calls have been issued yet. -/
def ws_open_state : WSHandlerState :=
  { close_from_session_tag := false
    conn_open := true
    transport_close_calls := 0
    session_close_calls := [] }

/-- A call to `self.close()`: the transport connection begins closing.
(The framework later fires `on_close`.) -/
def ws_close_transport (s : WSHandlerState) : WSHandlerState :=
  { s with conn_open := false, transport_close_calls := s.transport_close_calls + 1 }

/-- `WSHandler.close_from_session` (lines 51-53): set the tag, then close
the transport. -/
def ws_close_from_session (s : WSHandlerState) : WSHandlerState :=
  ws_close_transport { s with close_from_session_tag := true }

/-- `WSHandler.on_close` (lines 55-58): if the close was not initiated
through `close_from_session`, call `self.session.close(no_session_close_callback=True)`. -/
def ws_on_close (s : WSHandlerState) : WSHandlerState :=
  if s.close_from_session_tag then s
  else { s with session_close_calls := s.session_close_calls ++ [true] }

/-- The `on_session_close` callback the handler wires into the Session at
`open` (lines 39-45): the `AsyncBasedSession` branch passes `self.close`
(plain transport close, tag untouched); the `ThreadBasedWebIOSession`
branch passes `self.close_from_session`. -/
def ws_on_session_close (impl : SessionImplement) (s : WSHandlerState) : WSHandlerState :=
  match impl with
  | .asyncBased => ws_close_transport s
  | .threadBased => ws_close_from_session s

/-- Interleaving in which the transport closes first: the framework fires
`on_close` on a freshly opened handler. -/
def ws_transport_first : WSHandlerState :=
  ws_on_close (ws_close_transport ws_open_state)

/-- Interleaving in which the Session closes first: the Session invokes
its `on_session_close` callback, the transport then finishes closing and
the framework fires `on_close`. -/
def ws_session_first (impl : SessionImplement) : WSHandlerState :=
  ws_on_close (ws_on_session_close impl ws_open_state)

/-- The property claimed for every interleaving and every session
implementation: a transport-initiated close produces exactly one
handler-issued `session.close` call carrying the suppress flag, while a
session-initiated close produces none (and closes the transport exactly
once). -/
def close_handshake_claim (impl : SessionImplement) : Prop :=
  ws_transport_first.session_close_calls = [true]
    ∧ (ws_session_first impl).session_close_calls = []
    ∧ (ws_session_first impl).transport_close_calls = 1

/-- `WSHandler.check_origin` (lines 22-23). -/
def check_origin (origin : String) : Bool :=
  true

/-- `WSHandler.send_msg_to_client` writes one frame per message via
`self.write_message(json.dumps(msg))`; a frame is appended to the
transport output. -/
def write_message (frame : String) (frames : List String) : List String :=
  frames ++ [frame]

/-- `WSHandler.send_msg_to_client` (lines 29-31): iterate over
`session.get_task_messages()` in order and write each serialized message.
`dumps` stands for `json.dumps`, `task_messages` for the list the Session
currently reports, `frames` for the frames already written on this
connection. -/
def send_msg_to_client (Msg : Type) (dumps : Msg → String)
    (task_messages : List Msg) (frames : List String) : List String :=
  task_messages.foldl (fun fs msg => write_message (dumps msg) fs) frames

/-- Outcome of `json.loads` on a raw frame, modelled at the interface of
the `json` collaborator: a frame either decodes to an event payload or is
malformed, in which case `json.loads` raises a decode error. -/
inductive RawMessage
  | valid (event : String)
  | malformed (text : String)
deriving DecidableEq, Repr

/-- The exception `json.loads` raises on malformed input. -/
inductive JsonError
  | decode_error
deriving DecidableEq, Repr

/-- `json.loads(message)` as used on line 48. -/
def json_loads : RawMessage → Except JsonError String
  | .valid event => .ok event
  | .malformed _ => .error .decode_error

/-- `WSHandler.on_message` (lines 47-49): parse the raw frame and forward
the decoded event to `self.session.send_client_event(data)`. There is no
try/except around `json.loads`, so a decode error propagates out of the
handler; `forwarded` is the list of events forwarded to the Session so
far. -/
def on_message (raw : RawMessage) (forwarded : List String) :
    Except JsonError (List String) :=
  match json_loads raw with
  | .ok data => .ok (forwarded ++ [data])
  | .error e => .error e

/-- Process-wide state of `SingletonWSHandler` in
`start_server_in_current_thread_session` (lines 127-147).
`slot` is `SingletonWSHandler.session is not None` (the class attribute);
`conn_opened_event` is the `websocket_conn_opened` threading event;
`sessions_created` counts `DesignatedThreadSession` constructions;
`refused` counts duplicate connections closed immediately by `open`;
`session_close_calls` counts `close()` calls applied to the claimed
Session (via the class-attribute lookup `self.session`). -/
structure SingletonState where
  slot : Bool
  conn_opened_event : Bool
  sessions_created : Nat
  refused : Nat
  session_close_calls : Nat
deriving DecidableEq, Repr

/-- State before any client connects: `session = None`, event unset. -/
def singleton_init : SingletonState :=
  { slot := false
    conn_opened_event := false
    sessions_created := 0
    refused := 0
    session_close_calls := 0 }

/-- `SingletonWSHandler.open` (lines 136-142): if the class-level session
slot is empty, create the `DesignatedThreadSession` and set the
connection-claimed event; otherwise close the new connection
immediately. -/
def singleton_open (s : SingletonState) : SingletonState :=
  if s.slot then
    { s with refused := s.refused + 1 }
  else
    { s with
      slot := true
      sessions_created := s.sessions_created + 1
      conn_opened_event := true }

/-- `SingletonWSHandler.on_close` (lines 144-147): if
`SingletonWSHandler.session is not None`, call `self.session.close()`.
`self.session` resolves to the class attribute, i.e. the claimed
Session. -/
def singleton_on_close (s : SingletonState) : SingletonState :=
  if s.slot then
    { s with session_close_calls := s.session_close_calls + 1 }
  else s

/-- The state after a sequence of `n` connection open events starting
from `singleton_init`. -/
def run_opens : Nat → SingletonState
  | 0 => singleton_init
  | n + 1 => singleton_open (run_opens n)

/-- `stoploop_after_thread_stop` (lines 149-154) as a timed loop: each
`await asyncio.sleep(1)` advances the clock by one unit, `is_alive t` is
the liveness the poll at time `t` observes. The coroutine polls, sleeps
while alive, and once a poll sees the thread dead it sleeps one more
interval and stops the ioloop; the result is the stop time (`none` when
the fuel runs out before the thread dies). -/
def stoploop_after_thread_stop (is_alive : Nat → Bool) : Nat → Nat → Option Nat
  | 0, _ => none
  | fuel + 1, t =>
    if is_alive t then stoploop_after_thread_stop is_alive fuel (t + 1)
    else some (t + 1)

/-- Liveness trace of a worker thread that terminates strictly between
poll `d - 1` and poll `d`: every poll before time `d` sees it alive, the
poll at time `d` is the first to see it dead. -/
def thread_alive_until (d : Nat) : Nat → Bool :=
  fun t => decide (t < d)

/-- Observable effects of the server bootstrap: the startup print, the
socket bind, starting and stopping the ioloop, log calls and the browser
launch. -/
inductive Effect
  | print_listen (line : String)
  | listen (port : Nat) (host : String)
  | ioloop_start
  | ioloop_stop
  | log_info (msg : String)
  | log_error (msg : String)
  | webbrowser_open (url : String)
deriving DecidableEq, Repr

/-- The two route handler kinds registered by `_setup_server`. -/
inductive RouteHandler
  | websocket_upgrade
  | static_files (path : String) (default_filename : String)
deriving DecidableEq, Repr

/-- One entry of the Tornado handlers table: a URL pattern and its
handler. -/
structure Route where
  pattern : String
  handler : RouteHandler
deriving DecidableEq, Repr

/-- The static asset root `STATIC_PATH` imported from `pywebio.utils`
(outside this file); its concrete value does not matter to the bridge. -/
def STATIC_PATH : String :=
  "pywebio/html"

/-- What `_setup_server` produces: its effect trace, the registered
routes, and the resolved port it returns to the caller. -/
structure SetupResult where
  effects : List Effect
  routes : List Route
  resolved_port : Nat
deriving DecidableEq, Repr

/-- `_setup_server` (lines 73-84): resolve port 0 to a free port (the
value `get_free_port()` would return is the parameter `free_port`), print
the bind address (`host or 0.0.0.0`), register the `/io` websocket route
and the catch-all static route with `index.html` as default document,
bind the socket, and return the server together with the resolved
port. -/
def setup_server (free_port : Nat) (port : Nat) (host : String) : SetupResult :=
  let port := if port = 0 then free_port else port
  { effects :=
      [ Effect.print_listen
          ("Listen on " ++ (if host = "" then "0.0.0.0" else host) ++ ":" ++ toString port)
      , Effect.listen port host ]
    routes :=
      [ { pattern := "/io", handler := RouteHandler.websocket_upgrade }
      , { pattern := "/(.*)", handler := RouteHandler.static_files STATIC_PATH "index.html" } ]
    resolved_port := port }

/-- `start_server` (lines 122-124) after the option plumbing: run
`_setup_server`, then start the ioloop. Its effect trace is the setup
trace followed by the blocking `IOLoop.current().start()`. -/
def start_server_trace (free_port : Nat) (port : Nat) (host : String) : List Effect :=
  (setup_server free_port port host).effects ++ [Effect.ioloop_start]

/-- A value stored in the Tornado application settings dict. -/
inductive SettingVal
  | bool (b : Bool)
  | nat (n : Nat)
  | str (s : String)
deriving DecidableEq, Repr

/-- The `tornado_app_settings` dict, as a lookup map. -/
def Settings : Type :=
  String → Option SettingVal

/-- `tornado_app_settings[opt] = value`. -/
def dict_set (d : Settings) (k : String) (v : SettingVal) : Settings :=
  fun q => if q = k then some v else d q

/-- One iteration of the option loop for an option of numeric type:
assigned only when the value `is not None`. -/
def set_opt_nat (d : Settings) (k : String) : Option Nat → Settings
  | some v => dict_set d k (.nat v)
  | none => d

/-- The option plumbing of `start_server` (lines 113-120): for each name
in `app_options = [debug, websocket_max_message_size,
websocket_ping_interval, websocket_ping_timeout]`, copy the keyword value
into `tornado_app_settings` when it `is not None`. In the signature
(lines 87-91) `debug` defaults to `False` and the three websocket options
default to `None`, so `debug` is a `Bool` here and never `None`. -/
def start_server_settings (debug : Bool)
    (websocket_max_message_size : Option Nat)
    (websocket_ping_interval : Option Nat)
    (websocket_ping_timeout : Option Nat)
    (tornado_app_settings : Settings) : Settings :=
  let s := dict_set tornado_app_settings "debug" (.bool debug)
  let s := set_opt_nat s "websocket_max_message_size" websocket_max_message_size
  let s := set_opt_nat s "websocket_ping_interval" websocket_ping_interval
  let s := set_opt_nat s "websocket_ping_timeout" websocket_ping_timeout
  s

/-- `open_webbrowser_on_server_started` (lines 63-70): `is_open` is the
report of the Port Reachability Poller `wait_host_port(host, port,
duration=5, delay=0.5)`; when reachable, log and open the browser once at
the server URL; otherwise only log an error. -/
def open_webbrowser_on_server_started (host : String) (port : Nat)
    (is_open : Bool) : List Effect :=
  let url := "http://" ++ host ++ ":" ++ toString port
  if is_open then
    [Effect.log_info ("Openning " ++ url), Effect.webbrowser_open url]
  else
    [Effect.log_error ("Open " ++ url ++ " failed.")]

/-- True exactly on browser-launch effects. -/
def is_browser_open_eff : Effect → Bool
  | .webbrowser_open _ => true
  | _ => false

/-- True exactly on error-log effects. -/
def is_log_error_eff : Effect → Bool
  | .log_error _ => true
  | _ => false

/-- Frames written by `send_msg_to_client` are exactly the previous
frames followed by the serializations of the task messages, in order. -/
theorem send_msg_to_client_frames (Msg : Type) (dumps : Msg → String)
    (msgs : List Msg) (frames : List String) :
    send_msg_to_client Msg dumps msgs frames = frames ++ msgs.map dumps := by
  induction msgs generalizing frames with
  | nil => simp [send_msg_to_client]
  | cons m ms ih =>
    show send_msg_to_client Msg dumps ms (write_message (dumps m) frames)
        = frames ++ (dumps m :: ms.map dumps)
    rw [ih]
    simp [write_message]

/-- C1, counterexample. The claim asserts that for every session
implementation and every interleaving, a session-initiated close leads to
no further handler-issued `session.close` call. For `AsyncBasedSession`
the handler wires `on_session_close=self.close` (line 41), so the
`_close_from_session_tag` is never set and `on_close` still issues
`session.close(no_session_close_callback=True)`: the claim fails at the
concrete input `asyncBased`, session-closes-first interleaving. -/
theorem C1_counterexample : ¬ close_handshake_claim SessionImplement.asyncBased := by
  unfold close_handshake_claim
  decide

/-- C1, amended. For the thread-based session (whose `on_session_close`
is `close_from_session`), the claimed handshake holds exactly: a
transport-first close yields exactly one handler-issued `session.close`
carrying the suppress flag, and a session-first close yields none while
closing the transport exactly once. For the async-based session the
transport-first case is identical, but a session-initiated close makes
the handler issue one additional `session.close` call — still with the
suppress flag, so no close cycle arises. -/
theorem C1_close_handshake_amended :
    close_handshake_claim SessionImplement.threadBased
      ∧ (ws_session_first SessionImplement.asyncBased).session_close_calls = [true]
      ∧ (ws_session_first SessionImplement.asyncBased).transport_close_calls = 1 := by
  unfold close_handshake_claim
  decide

/-- C2: for every sequence of task messages, the send path writes exactly
one frame per message, each the serialization of its message, appended to
the connection output in the emission order — hence no loss, no
duplication, no batching and no reordering. -/
theorem C2_send_path_ordered (Msg : Type) (dumps : Msg → String)
    (msgs : List Msg) (frames : List String) :
    send_msg_to_client Msg dumps msgs frames = frames ++ msgs.map dumps
      ∧ (send_msg_to_client Msg dumps msgs frames).length
          = frames.length + msgs.length := by
  refine ⟨send_msg_to_client_frames Msg dumps msgs frames, ?_⟩
  rw [send_msg_to_client_frames]
  simp

/-- C3, counterexample. The claim asserts a malformed payload is logged
and dropped without crashing the handler. On the concrete malformed frame
the untried `json.loads` call raises, so `on_message` propagates a decode
error instead of returning normally with the message dropped. -/
theorem C3_counterexample :
    on_message (RawMessage.malformed "not json") [] = Except.error JsonError.decode_error
      ∧ on_message (RawMessage.malformed "not json") [] ≠ Except.ok [] := by
  constructor <;> simp [on_message, json_loads]

/-- C3, amended. `on_message` wraps no error handling around
`json.loads`: a malformed payload makes the handler raise the decode
error (no log-and-drop; the transport framework then handles the
uncaught exception), and in particular no event is forwarded to the
Session; a well-formed payload is forwarded unmodified. -/
theorem C3_malformed_raises (text : String) (forwarded : List String) :
    on_message (RawMessage.malformed text) forwarded = Except.error JsonError.decode_error
      ∧ (∀ event, on_message (RawMessage.valid event) forwarded
          = Except.ok (forwarded ++ [event])) := by
  constructor <;> simp [on_message, json_loads]

/-- C4: over any sequence of connection open events in designated-thread
mode, only the first open creates a Session, claims the process-wide
slot and sets the connection-claimed signal; each of the `n` later opens
creates no Session and is refused by an immediate close. -/
theorem C4_first_open_claims_slot (n : Nat) :
    (run_opens (n + 1)).sessions_created = 1
      ∧ (run_opens (n + 1)).slot = true
      ∧ (run_opens (n + 1)).conn_opened_event = true
      ∧ (run_opens (n + 1)).refused = n
      ∧ (run_opens 0).sessions_created = 0
      ∧ (run_opens 0).conn_opened_event = false := by
  induction n with
  | zero => exact ⟨rfl, rfl, rfl, rfl, rfl, rfl⟩
  | succ k ih =>
    obtain ⟨h1, h2, h3, h4, h5, h6⟩ := ih
    have hstep : run_opens (k + 1 + 1) = singleton_open (run_opens (k + 1)) := rfl
    refine ⟨?_, ?_, ?_, ?_, h5, h6⟩ <;>
      rw [hstep] <;> simp [singleton_open, h1, h2, h3, h4]

/-- C5: the code violates the claim. After the first open claims the
Session and a duplicate open is refused by `self.close()`, the completion
of that close fires `SingletonWSHandler.on_close`, whose guard
`SingletonWSHandler.session is not None` is true; `self.session` resolves
to the class attribute, so `close()` is applied to the already-claimed
Session — one close call where the claim requires none. -/
theorem C5_duplicate_refusal_closes_claimed_session :
    (singleton_on_close (singleton_open (singleton_open singleton_init))).session_close_calls = 1
      ∧ (singleton_open (singleton_open singleton_init)).refused = 1
      ∧ (singleton_open (singleton_open singleton_init)).sessions_created = 1 := by
  decide

/-- Helper for C6: from any poll time `t ≤ d` with enough fuel, the
watcher loop polls once per interval, observes death first at poll `d`,
sleeps exactly one more interval and stops the ioloop at time `d + 1`. -/
theorem stoploop_stops_aux (d : Nat) :
    ∀ (fuel t : Nat), t ≤ d → d - t < fuel →
      stoploop_after_thread_stop (thread_alive_until d) fuel t = some (d + 1) := by
  intro fuel
  induction fuel with
  | zero =>
    intro t ht hf
    omega
  | succ k ih =>
    intro t ht hf
    by_cases h : t < d
    · have ha : thread_alive_until d t = true := by simp [thread_alive_until, h]
      simp only [stoploop_after_thread_stop, ha, if_true]
      exact ih (t + 1) (by omega) (by omega)
    · have ht' : t = d := by omega
      subst ht'
      have ha : thread_alive_until t t = false := by simp [thread_alive_until]
      simp [stoploop_after_thread_stop, ha]

/-- C6: for a worker thread whose polls at times `0, 1, ...` see it alive
strictly before time `d` and dead from poll `d` on, the watcher started
at time 0 stops the event loop exactly at time `d + 1`: one poll interval
after the first poll observing termination, i.e. within (poll interval +
grace period) of the thread terminating, which happens after poll
`d - 1`. -/
theorem C6_watcher_stops_one_interval_after_death (d fuel : Nat) (h : d < fuel) :
    stoploop_after_thread_stop (thread_alive_until d) fuel 0 = some (d + 1)
      ∧ thread_alive_until d d = false
      ∧ (∀ t, t < d → thread_alive_until d t = true) := by
  refine ⟨stoploop_stops_aux d fuel 0 (Nat.zero_le d) (by omega), ?_, ?_⟩
  · simp [thread_alive_until]
  · intro t ht
    simp [thread_alive_until, ht]

/-- C6, witness: a thread dying between polls 2 and 3, watched with fuel
10, stops the loop at time 4. -/
theorem C6_witness :
    3 < 10
      ∧ (stoploop_after_thread_stop (thread_alive_until 3) 10 0 = some 4
        ∧ thread_alive_until 3 3 = false
        ∧ (∀ t, t < 3 → thread_alive_until 3 t = true)) :=
  ⟨by decide, C6_watcher_stops_one_interval_after_death 3 10 (by decide)⟩

/-- C7: requesting port 0 resolves to the concrete free port (a nonzero
requested port stays as requested) and the resolved port is returned to
the caller; exactly two routes are registered — the fixed `/io` upgrade
path and the catch-all static route rooted at the asset directory with
`index.html` as default document; and the bootstrap trace prints the
final bind address strictly before the event loop starts. -/
theorem C7_setup_server_spec (free_port : Nat) (host : String) :
    (setup_server free_port 0 host).resolved_port = free_port
      ∧ (∀ p, (setup_server free_port (p + 1) host).resolved_port = p + 1)
      ∧ (setup_server free_port 0 host).routes =
          [ { pattern := "/io", handler := RouteHandler.websocket_upgrade }
          , { pattern := "/(.*)",
              handler := RouteHandler.static_files STATIC_PATH "index.html" } ]
      ∧ (setup_server free_port 0 host).routes.length = 2
      ∧ (∃ pre, start_server_trace free_port 0 host = pre ++ [Effect.ioloop_start]
          ∧ Effect.print_listen
              ("Listen on " ++ (if host = "" then "0.0.0.0" else host)
                ++ ":" ++ toString free_port) ∈ pre
          ∧ Effect.ioloop_start ∉ pre) := by
  refine ⟨rfl, ?_, rfl, rfl, ?_⟩
  · intro p
    simp [setup_server]
  · refine ⟨(setup_server free_port 0 host).effects, rfl, ?_, ?_⟩
    · simp [setup_server]
    · simp [setup_server]

/-- C8, counterexample. The claim asserts an option is passed into the
application settings only when the caller explicitly provided a
non-default value. `debug` defaults to `False`, which is `not None`, so
the all-defaults call still writes `debug` into the settings. -/
theorem C8_counterexample :
    start_server_settings false none none none (fun _ => none) "debug"
        = some (SettingVal.bool false)
      ∧ start_server_settings false none none none (fun _ => none) "debug" ≠ none := by
  constructor <;> simp [start_server_settings, set_opt_nat, dict_set]

/-- C8, amended. An option is copied into the application settings
exactly when its keyword value `is not None`: the three websocket options
default to `None` and are forwarded precisely when explicitly provided,
while `debug` (a `Bool`, default `False`) is always copied; every other
passthrough setting is forwarded unchanged. -/
theorem C8_option_plumbing (debug : Bool)
    (wmms wpi wpt : Option Nat) (d : Settings) :
    start_server_settings debug wmms wpi wpt d "debug" = some (SettingVal.bool debug)
      ∧ start_server_settings debug wmms wpi wpt d "websocket_max_message_size"
          = (match wmms with
             | some v => some (SettingVal.nat v)
             | none => d "websocket_max_message_size")
      ∧ start_server_settings debug wmms wpi wpt d "websocket_ping_interval"
          = (match wpi with
             | some v => some (SettingVal.nat v)
             | none => d "websocket_ping_interval")
      ∧ start_server_settings debug wmms wpi wpt d "websocket_ping_timeout"
          = (match wpt with
             | some v => some (SettingVal.nat v)
             | none => d "websocket_ping_timeout")
      ∧ (∀ k, k ≠ "debug" → k ≠ "websocket_max_message_size" →
          k ≠ "websocket_ping_interval" → k ≠ "websocket_ping_timeout" →
          start_server_settings debug wmms wpi wpt d k = d k) := by
  refine ⟨?_, ?_, ?_, ?_, ?_⟩
  · rcases wmms with _ | v1 <;> rcases wpi with _ | v2 <;> rcases wpt with _ | v3 <;>
      simp [start_server_settings, set_opt_nat, dict_set]
  · rcases wmms with _ | v1 <;> rcases wpi with _ | v2 <;> rcases wpt with _ | v3 <;>
      simp [start_server_settings, set_opt_nat, dict_set]
  · rcases wmms with _ | v1 <;> rcases wpi with _ | v2 <;> rcases wpt with _ | v3 <;>
      simp [start_server_settings, set_opt_nat, dict_set]
  · rcases wmms with _ | v1 <;> rcases wpi with _ | v2 <;> rcases wpt with _ | v3 <;>
      simp [start_server_settings, set_opt_nat, dict_set]
  · intro k hk1 hk2 hk3 hk4
    rcases wmms with _ | v1 <;> rcases wpi with _ | v2 <;> rcases wpt with _ | v3 <;>
      simp [start_server_settings, set_opt_nat, dict_set, hk1, hk2, hk3, hk4]

/-- C8, witness for the amended theorem: with `debug=True` and only the
max-message-size option provided over empty passthrough settings, `debug`
and that option are present and an unrelated key stays absent. -/
theorem C8_witness :
    start_server_settings true (some 5) none none (fun _ => none) "debug"
        = some (SettingVal.bool true)
      ∧ start_server_settings true (some 5) none none (fun _ => none) "xsrf_cookies"
        = none := by
  have h := C8_option_plumbing true (some 5) none none (fun _ => none)
  exact ⟨h.1, h.2.2.2.2 "xsrf_cookies" (by decide) (by decide) (by decide) (by decide)⟩

/-- C9: the browser is launched exactly once when the reachability poller
reports the port open and never otherwise; on failure exactly one error
is logged; in neither case does the routine stop the event loop or raise,
so the server keeps running. -/
theorem C9_browser_open_gated (host : String) (port : Nat) (is_open : Bool) :
    (open_webbrowser_on_server_started host port is_open).countP is_browser_open_eff
        = (if is_open then 1 else 0)
      ∧ (open_webbrowser_on_server_started host port is_open).countP is_log_error_eff
        = (if is_open then 0 else 1)
      ∧ Effect.ioloop_stop ∉ open_webbrowser_on_server_started host port is_open := by
  cases is_open <;>
    simp [open_webbrowser_on_server_started, is_browser_open_eff, is_log_error_eff,
      List.countP_cons, List.countP_nil]

/-- C10: the upgrade handshake accepts every origin: `check_origin`
returns `True` unconditionally. -/
theorem C10_check_origin_accepts_all (origin : String) :
    check_origin origin = true :=
  rfl

end PyWebio
